import Mathlib

/-!
Verification of the NearTRIP NTRIP proxy (a Node.js program) against its
natural-language specification.  The JavaScript sources are shallowly
embedded: JavaScript numbers become the inductive type `JsNum` (an
idealized IEEE double: NaN, the two infinities, and exact rationals for
the finite values), strings become `String`, fallible code returns
`Option` or `Except`, and the stateful session/registry code becomes
explicit state passing over small state records.
-/

attribute [local semireducible] Rat.add Rat.mul Rat.sub Rat.inv Rat.ofScientific

/-- A JavaScript number: NaN, positive infinity, negative infinity, or a
finite value (modelled exactly as a rational; the embedding idealizes the
rounding of IEEE doubles, which none of the verified properties depend
on). -/
inductive JsNum where
  | nan : JsNum
  | inf : JsNum
  | ninf : JsNum
  | num (q : ℚ) : JsNum
deriving DecidableEq

namespace JsNum

/-- JavaScript isNaN on a number (no string coercion is needed: every call
site in the sources passes a number). -/
def isNaNb : JsNum → Bool
  | nan => true
  | _ => false

/-- JavaScript Number.isFinite, used to state the spec side of claims that
speak about finite numbers (the sources themselves never call it). -/
def isFinite : JsNum → Bool
  | num _ => true
  | _ => false

/-- JavaScript truthiness of a number: 0 and NaN are falsy. -/
def jsTruthy : JsNum → Bool
  | nan => false
  | num q => decide (q ≠ 0)
  | _ => true

/-- IEEE negation (negative zero is identified with zero). -/
def jsNeg : JsNum → JsNum
  | nan => nan
  | inf => ninf
  | ninf => inf
  | num q => num (-q)

/-- IEEE addition. -/
def jsAdd : JsNum → JsNum → JsNum
  | nan, _ => nan
  | _, nan => nan
  | inf, ninf => nan
  | ninf, inf => nan
  | inf, _ => inf
  | _, inf => inf
  | ninf, _ => ninf
  | _, ninf => ninf
  | num a, num b => num (a + b)

/-- IEEE subtraction. -/
def jsSub (a b : JsNum) : JsNum := jsAdd a (jsNeg b)

/-- IEEE multiplication. -/
def jsMul : JsNum → JsNum → JsNum
  | nan, _ => nan
  | _, nan => nan
  | inf, inf => inf
  | inf, ninf => ninf
  | ninf, inf => ninf
  | ninf, ninf => inf
  | inf, num b => if b = 0 then nan else if 0 < b then inf else ninf
  | num a, inf => if a = 0 then nan else if 0 < a then inf else ninf
  | ninf, num b => if b = 0 then nan else if 0 < b then ninf else inf
  | num a, ninf => if a = 0 then nan else if 0 < a then ninf else inf
  | num a, num b => num (a * b)

/-- IEEE division (positive zero only, so x/0 has the sign of x). -/
def jsDiv : JsNum → JsNum → JsNum
  | nan, _ => nan
  | _, nan => nan
  | inf, inf => nan
  | inf, ninf => nan
  | ninf, inf => nan
  | ninf, ninf => nan
  | inf, num b => if 0 ≤ b then inf else ninf
  | ninf, num b => if 0 ≤ b then ninf else inf
  | num _, inf => num 0
  | num _, ninf => num 0
  | num a, num b =>
      if b = 0 then (if a = 0 then nan else if 0 < a then inf else ninf)
      else num (a / b)

/-- JavaScript Math.floor. -/
def jsFloor : JsNum → JsNum
  | nan => nan
  | inf => inf
  | ninf => ninf
  | num q => num (⌊q⌋ : ℚ)

/-- IEEE strict less-than; any comparison with NaN is false. -/
def jsLt : JsNum → JsNum → Bool
  | nan, _ => false
  | _, nan => false
  | inf, _ => false
  | _, inf => true
  | ninf, ninf => false
  | ninf, _ => true
  | _, ninf => false
  | num a, num b => decide (a < b)

/-- JavaScript logical-or on numbers, as in the idiom parseInt(x) or 0. -/
def jsOr (a b : JsNum) : JsNum := if jsTruthy a then a else b

end JsNum

open JsNum

/-- Embedding of parseLatLon (src gps utilities, lines 16-24): converts a
coordinate in NMEA DDMM.MMMM format to decimal degrees, throwing (the
error branch) when isNaN holds of the input.  The undefined/null guards
of the JavaScript cannot fire on a number input and are subsumed by the
isNaN test. -/
def parseLatLon (latlon : JsNum) : Except Unit JsNum :=
  if isNaNb latlon then Except.error ()
  else
    let degree := jsFloor (jsDiv latlon (num 100))
    let minute := jsSub latlon (jsMul degree (num 100))
    Except.ok (jsAdd degree (jsDiv minute (num 60)))

/-! ## GPGGA sentence parsing -/

/-- Numeric value of a list of decimal digit characters. -/
def digitsToNat (ds : List Char) : Nat := ds.foldl (fun a c => a * 10 + (c.toNat - 48)) 0

/-- White space as skipped by the JavaScript numeric parsers. -/
def isJsWs (c : Char) : Bool := c = ' ' || c = '\t' || c = '\n' || c = '\r'

/-- Model of the JavaScript builtin parseFloat on the decimal strings this
program feeds it: skip leading white space, optional sign, an Infinity
literal or digits with optional fraction and exponent; the longest valid
prefix is converted and NaN is returned when no prefix parses. -/
def jsParseFloat (s : String) : JsNum :=
  let cs0 := s.toList.dropWhile isJsWs
  let sgn : ℚ := match cs0 with
    | '-' :: _ => -1
    | _ => 1
  let cs := match cs0 with
    | '-' :: rest => rest
    | '+' :: rest => rest
    | _ => cs0
  if cs.take 8 = "Infinity".toList then (if sgn = 1 then JsNum.inf else JsNum.ninf)
  else
    let intDs := cs.takeWhile Char.isDigit
    let cs1 := cs.dropWhile Char.isDigit
    let fracDs := match cs1 with
      | '.' :: rest => rest.takeWhile Char.isDigit
      | _ => []
    let cs2 := match cs1 with
      | '.' :: rest => rest.dropWhile Char.isDigit
      | _ => cs1
    if intDs.isEmpty && fracDs.isEmpty then JsNum.nan
    else
      let mantissa : ℚ := (digitsToNat intDs : ℚ) + (digitsToNat fracDs : ℚ) / (10 : ℚ) ^ fracDs.length
      let expVal : ℤ := match cs2 with
        | c :: rest =>
          if c = 'e' || c = 'E' then
            let esgn : ℤ := match rest with
              | '-' :: _ => -1
              | _ => 1
            let rest2 := match rest with
              | '-' :: r => r
              | '+' :: r => r
              | _ => rest
            let eds := rest2.takeWhile Char.isDigit
            if eds.isEmpty then 0 else esgn * (digitsToNat eds : ℤ)
          else 0
        | [] => 0
      JsNum.num (sgn * mantissa * (10 : ℚ) ^ expVal)

/-- Model of the JavaScript builtin parseInt with radix 10: skip leading
white space, optional sign, then the longest digit prefix; NaN when that
prefix is empty. -/
def jsParseInt (s : String) : JsNum :=
  let cs0 := s.toList.dropWhile isJsWs
  let sgn : ℚ := match cs0 with
    | '-' :: _ => -1
    | _ => 1
  let cs := match cs0 with
    | '-' :: rest => rest
    | '+' :: rest => rest
    | _ => cs0
  let ds := cs.takeWhile Char.isDigit
  if ds.isEmpty then JsNum.nan else JsNum.num (sgn * (digitsToNat ds : ℚ))

/-- Embedding of the checksum computation of parseGPGGA (source lines
49-55): XOR of all character codes of the data part after the leading
dollar sign, rendered as an upper-case hexadecimal string padded to two
characters. -/
def gpggaChecksum (data : String) : String :=
  let x := (data.toList.drop 1).foldl (fun a c => a ^^^ c.toNat) 0
  let hx := String.mk ((Nat.toDigits 16 x).map Char.toUpper)
  if hx.length < 2 then "0" ++ hx else hx

/-- Splitting a character list at every occurrence of a separator
character, keeping empty segments, as JavaScript String.prototype.split
does.  The recursion is structural so that concrete sentences evaluate
inside the kernel. -/
def splitChar (sep : Char) : List Char → List (List Char)
  | [] => [[]]
  | c :: cs =>
      match splitChar sep cs with
      | [] => [[]]
      | h :: t => if c = sep then [] :: h :: t else (c :: h) :: t

/-- JavaScript String.prototype.split with a one-character separator (the
sources only split on a comma and on an asterisk). -/
def jsSplit (s : String) (sep : Char) : List String :=
  (splitChar sep s.data).map String.mk

/-- The record returned by parseGPGGA (source lines 109-122). -/
structure GpggaRecord where
  time : String
  latitude : JsNum
  longitude : JsNum
  fixQuality : JsNum
  numSatellites : JsNum
  horizontalDilution : JsNum
  altitude : JsNum
  altitudeUnit : String
  heightOfGeoid : JsNum
  heightOfGeoidUnit : String
  lastDGPSUpdate : String
  DGPSReferenceStationID : String
deriving DecidableEq

/-- Field-level part of parseGPGGA (source lines 63-122), applied after
the data part has been split on commas: the identifier check (the source
compares field 0 against the literal string GNGGA with dollar prefix
only), the minimum field count, the non-empty coordinate fields, the
latitude and longitude conversion through parseFloat and parseLatLon
(whose exception yields the none branch), and the record construction
with hemisphere negation. -/
def parseGPGGAFields (fields : List String) : Option GpggaRecord :=
  if fields.getD 0 "" ≠ "$GNGGA" then none
  else if fields.length < 15 then none
  else if fields.getD 2 "" = "" || fields.getD 4 "" = "" then none
  else
    match parseLatLon (jsParseFloat (fields.getD 2 "")),
          parseLatLon (jsParseFloat (fields.getD 4 "")) with
    | Except.ok latitude, Except.ok longitude =>
        let latDirection := fields.getD 3 ""
        let lonDirection := fields.getD 5 ""
        some {
          time := fields.getD 1 ""
          latitude := if latDirection = "N" then latitude else jsNeg latitude
          longitude := if lonDirection = "E" then longitude else jsNeg longitude
          fixQuality := jsOr (jsParseInt (fields.getD 6 "")) (num 0)
          numSatellites := jsOr (jsParseInt (fields.getD 7 "")) (num 0)
          horizontalDilution := jsOr (jsParseFloat (fields.getD 8 "")) (num 0)
          altitude := jsOr (jsParseFloat (fields.getD 9 "")) (num 0)
          altitudeUnit := fields.getD 10 ""
          heightOfGeoid := jsOr (jsParseFloat (fields.getD 11 "")) (num 0)
          heightOfGeoidUnit := fields.getD 12 ""
          lastDGPSUpdate := fields.getD 13 ""
          DGPSReferenceStationID := fields.getD 14 "" }
    | _, _ => none

/-- Comma-splitting stage of parseGPGGA (source line 63). -/
def parseGPGGAData (data : String) : Option GpggaRecord :=
  parseGPGGAFields (jsSplit data ',')

/-- Embedding of parseGPGGA (source lines 32-127): reject a non-string or
empty input, split on the asterisk into data and checksum parts, reject
unless exactly one asterisk is present, compute the checksum of the data
part (a mismatch with the provided checksum is only logged, source lines
58-60, so the returned value does not depend on it), then parse the
fields of the data part. -/
def parseGPGGA (sentence : String) : Option GpggaRecord :=
  if sentence = "" then none
  else
    match jsSplit sentence '*' with
    | [data, _checksum] => parseGPGGAData data
    | _ => none

/-- The valid GPGGA sentence used by the repository test suite, which
expects parseGPGGA to return a parsed record for it. -/
def testGpggaSentence : String :=
  "$GPGGA,123519,3723.2475,N,12158.3416,W,1,07,1.0,9.0,M,-34.2,M,,*59"

/-- The same sentence with the GNGGA identifier that the field check of
the source actually accepts (checksum recomputed accordingly). -/
def testGnggaSentence : String :=
  "$GNGGA,123519,3723.2475,N,12158.3416,W,1,07,1.0,9.0,M,-34.2,M,,*6A"

/-- Data part of a well-formed GNGGA sentence, used to compare checksum
behaviours. -/
def c7Data : String :=
  "$GNGGA,123519,3723.2475,N,12158.3416,W,1,07,1.0,9.0,M,-34.2,M,,"

/-- The sentence whose trailing checksum is the correct one for c7Data. -/
def c7GoodSentence : String :=
  "$GNGGA,123519,3723.2475,N,12158.3416,W,1,07,1.0,9.0,M,-34.2,M,,*6A"

/-- The same data with a wrong checksum. -/
def c7BadSentence : String :=
  "$GNGGA,123519,3723.2475,N,12158.3416,W,1,07,1.0,9.0,M,-34.2,M,,*00"

/-- A concrete split field list of a well-formed GNGGA sentence, used to
instantiate the hemisphere-negation theorem. -/
def c10Fields : List String :=
  ["$GNGGA", "123519", "3723.2475", "N", "12158.3416", "W", "1", "07",
   "1.0", "9.0", "M", "-34.2", "M", "", ""]

/-! ## Nearest-station selection -/

/-- A station entry of the configuration stations array: the fields
consumed by findClosestStation and by the GPGGA request handler. -/
structure Station where
  mountPoint : String
  latitude : JsNum
  longitude : JsNum
  active : Option Bool := none
  casterHost : String := ""
  casterPort : Nat := 0
  username : String := ""
  password : String := ""
deriving DecidableEq

/-- The station filter of findClosestStation (source lines 170-174):
active must be absent or exactly true, and both coordinates must pass
the isNaN test.  Note the source checks isNaN, not finiteness, so
infinite coordinates pass. -/
def stationFilter (station : Station) : Bool :=
  (station.active = none || station.active = some true)
    && !(isNaNb station.latitude) && !(isNaNb station.longitude)

/-- The reduce of findClosestStation (source lines 181-189), as a named
fold with the per-station distance abstracted into key: starting from
null, a station replaces the current best exactly when its distance is
strictly smaller, so ties keep the earlier station. -/
def closestFold (key : Station → JsNum) (stations : List Station) : Option (Station × JsNum) :=
  stations.foldl (fun closestStation station =>
    match closestStation with
    | none => some (station, key station)
    | some c => if jsLt (key station) c.2 then some (station, key station) else some c) none

/-- Embedding of findClosestStation (source lines 158-190).  The
distance comes from calculateDistance, whose geolib core is an external
library absent from the repository, so the distance function is a
parameter here; the try/catch of calculateDistance (source lines
138-148) returns geolib's meters or Infinity on an exception, which the
theorems reflect as a no-NaN hypothesis on the distances. -/
def findClosestStation (dist : JsNum → JsNum → JsNum → JsNum → JsNum)
    (user_lat user_lon : JsNum) (stations : List Station) : Option (Station × JsNum) :=
  if stations.isEmpty then none
  else if isNaNb user_lat || isNaNb user_lon then none
  else
    let activeStations := stations.filter stationFilter
    if activeStations.isEmpty then none
    else
      closestFold (fun station => dist user_lat user_lon station.latitude station.longitude)
        activeStations

/-- Filter written from the words of claim C1, which asks for finite
coordinates; used only to state the counterexample against the claim as
written. -/
def specFiniteFilter (station : Station) : Bool :=
  (station.active = none || station.active = some true)
    && JsNum.isFinite station.latitude && JsNum.isFinite station.longitude

/-- A station whose latitude is positive infinity: it fails the finite
filter the claim describes but passes the isNaN filter of the source. -/
def infStation : Station :=
  { mountPoint := "INF", latitude := JsNum.inf, longitude := num 0 }

/-- A concrete distance function used to evaluate findClosestStation on
closed inputs. -/
def distZero : JsNum → JsNum → JsNum → JsNum → JsNum := fun _ _ _ _ => num 0

/-- A concrete distance function returning the station latitude, used to
exercise the minimality and tie-break statement on closed inputs. -/
def distLat : JsNum → JsNum → JsNum → JsNum → JsNum := fun _ _ la _ => la

/-- A concrete station list with an implicitly active, an explicitly
active and an inactive station. -/
def c1Stations : List Station :=
  [{ mountPoint := "A", latitude := num 1, longitude := num 0 },
   { mountPoint := "B", latitude := num 5, longitude := num 0, active := some true },
   { mountPoint := "C", latitude := num 0, longitude := num 0, active := some false }]

/-! ## Configuration store -/

/-- A configuration snapshot with the fields of DEFAULT_CONFIG
(config.js lines 13-24). -/
structure ServerConfig where
  username : String
  password : String
  interface : String
  port : Nat
  mountPoint : String
  userAgent : String
  adminPort : Nat
  adminUsername : String
  adminPassword : String
  stations : List Station
deriving DecidableEq

/-- The built-in default configuration (config.js lines 13-24). -/
def DEFAULT_CONFIG : ServerConfig :=
  { username := "", password := "", interface := "0.0.0.0", port := 2101,
    mountPoint := "NEAR-Default", userAgent := "NearTRIP/1.0", adminPort := 3000,
    adminUsername := "admin", adminPassword := "admin", stations := [] }

/-- State of the configuration file on disk as loadConfig observes it:
missing, present but failing to parse, or present and parsing to a
snapshot. -/
inductive ConfigFile where
  | missing : ConfigFile
  | corrupt : ConfigFile
  | valid (c : ServerConfig) : ConfigFile
deriving DecidableEq

/-- Embedding of loadConfig (config.js lines 36-85) acting on the module
variable currentConfig, returned as the second component.  When the file
is missing, the defaults are written to disk (writeOk says whether that
file-system write succeeds) and published; when the file exists but
fails to parse, the catch block publishes a copy of the defaults (lines
75-81); when it parses, the parsed snapshot is published.  Only the
missing-and-write-failed path reaches the throw of line 83 and leaves
currentConfig unchanged. -/
def loadConfig (writeOk : Bool) (file : ConfigFile) (currentConfig : Option ServerConfig) :
    Except String ServerConfig × Option ServerConfig :=
  match file with
  | ConfigFile.missing =>
      if writeOk then (Except.ok DEFAULT_CONFIG, some DEFAULT_CONFIG)
      else (Except.error "Could not load configuration file", currentConfig)
  | ConfigFile.corrupt => (Except.ok DEFAULT_CONFIG, some DEFAULT_CONFIG)
  | ConfigFile.valid c => (Except.ok c, some c)

/-- Embedding of getConfig (config.js lines 92-97): the stored snapshot
when one exists, a fresh load otherwise. -/
def getConfig (writeOk : Bool) (file : ConfigFile) (currentConfig : Option ServerConfig) :
    Except String ServerConfig × Option ServerConfig :=
  match currentConfig with
  | some c => (Except.ok c, some c)
  | none => loadConfig writeOk file currentConfig

/-- Embedding of reloadConfig (config.js lines 106-109): a plain
loadConfig. -/
def reloadConfig (writeOk : Bool) (file : ConfigFile) (currentConfig : Option ServerConfig) :
    Except String ServerConfig × Option ServerConfig :=
  loadConfig writeOk file currentConfig

/-- A concrete snapshot different from the defaults. -/
def customConfig : ServerConfig := { DEFAULT_CONFIG with mountPoint := "CUSTOM" }

/-! ## Connection registry -/

/-- An entry of the admin connection registry (adminServer.js lines
342-358); timestamps are epoch milliseconds. -/
structure Conn where
  id : String
  connectedAt : Int
  disconnectedAt : Option Int := none
  active : Bool := true
  latitude : Option JsNum := none
  longitude : Option JsNum := none
  currentStation : Option String := none
  bytesSent : Nat := 0
  bytesReceived : Nat := 0
  nmeaLogFile : String := ""
deriving DecidableEq

/-- Embedding of updateConnection (adminServer.js lines 366-371): when
an entry with the id exists, it is replaced by the merge of the old
entry with the updates, given here as a field transformer. -/
def updateConnection (id : String) (merge : Conn → Conn) (reg : List Conn) : List Conn :=
  if reg.any (fun c => c.id = id) then
    reg.map (fun c => if c.id = id then merge c else c)
  else reg

/-- Embedding of removeConnection (adminServer.js lines 378-388): the
entry is marked inactive with a disconnect timestamp and stays in the
registry. -/
def removeConnection (id : String) (now : Int) (reg : List Conn) : List Conn :=
  if reg.any (fun c => c.id = id) then
    reg.map (fun c =>
      if c.id = id then { c with active := false, disconnectedAt := some now } else c)
  else reg

/-- Retention window constants (adminServer.js lines 17-19). -/
def CONNECTION_HISTORY_DAYS : Nat := 7

/-- The retention window in milliseconds (adminServer.js line 19). -/
def CONNECTION_HISTORY_MS : Int := CONNECTION_HISTORY_DAYS * 24 * 60 * 60 * 1000

/-- The purge scheduling interval of initAdminServer (adminServer.js
line 78): every six hours. -/
def PURGE_INTERVAL_MS : Int := 6 * 60 * 60 * 1000

/-- The date the purge compares (adminServer.js lines 413-416):
disconnectedAt when present, connectedAt otherwise. -/
def dateToCompare (c : Conn) : Int := c.disconnectedAt.getD c.connectedAt

/-- Embedding of purgeOldConnections (adminServer.js lines 408-434) over
the registry and the set of existing log files: entries whose compare
date is strictly before the cutoff are removed, and the log file of each
removed entry is deleted when it exists. -/
def purgeOldConnections (now : Int) (reg : List Conn) (files : List String) :
    List Conn × List String :=
  let cutoffDate := now - CONNECTION_HISTORY_MS
  (reg.filter (fun c => !decide (dateToCompare c < cutoffDate)),
   files.filter (fun f =>
     !(reg.any (fun c => decide (dateToCompare c < cutoffDate) && c.nmeaLogFile = f))))

/-! ## Upstream forwarding and byte accounting -/

/-- Per-session forwarding state: the registry, the sentBytes closure
variable of the data handler installed on the currently bound upstream
socket (server.js lines 199-213), and the chunks written to the rover
socket so far. -/
structure FwdState where
  registry : List Conn
  sentBytes : Nat
  writtenToRover : List Nat
deriving DecidableEq

/-- Events seen by a session while forwarding: a successful dial of an
upstream station, which installs a fresh data handler whose sentBytes
closure variable starts at zero (server.js lines 183-213), or a data
chunk of a given length arriving from the bound upstream. -/
inductive FwdEvent where
  | dial (mountPoint : String) : FwdEvent
  | chunk (len : Nat) : FwdEvent
deriving DecidableEq

/-- One forwarding step for the session of connection id: a dial resets
the closure counter and records the new station in the registry
(server.js lines 194-200); a chunk, when the rover socket is not
destroyed, is written to the rover, the closure counter grows by the
chunk length and updateConnection stores that counter as bytesSent
(server.js lines 203-213). -/
def fwdStep (id : String) (clientDestroyed : Bool) (st : FwdState) : FwdEvent → FwdState
  | FwdEvent.dial mp =>
      { st with
          sentBytes := 0,
          registry :=
            updateConnection id (fun c => { c with currentStation := some mp }) st.registry }
  | FwdEvent.chunk n =>
      if clientDestroyed then st
      else
        { registry :=
            updateConnection id (fun c => { c with bytesSent := st.sentBytes + n }) st.registry,
          sentBytes := st.sentBytes + n,
          writtenToRover := st.writtenToRover ++ [n] }

/-- Run of the forwarding loop over a trace of events. -/
def fwdRun (id : String) (clientDestroyed : Bool) (st : FwdState) (evs : List FwdEvent) :
    FwdState :=
  evs.foldl (fwdStep id clientDestroyed) st

/-- The bytesSent recorded in the registry for a connection id. -/
def lookupBytesSent (id : String) (reg : List Conn) : Option Nat :=
  (reg.find? (fun c => c.id = id)).map Conn.bytesSent

/-- Total length of all chunks of a trace (what the claim says the
registry counter equals). -/
def totalChunkBytes : List FwdEvent → Nat
  | [] => 0
  | FwdEvent.dial _ :: evs => totalChunkBytes evs
  | FwdEvent.chunk n :: evs => n + totalChunkBytes evs

/-- The chunk lengths of a trace in order. -/
def chunkList : List FwdEvent → List Nat
  | [] => []
  | FwdEvent.dial _ :: evs => chunkList evs
  | FwdEvent.chunk n :: evs => n :: chunkList evs

/-- The closure counter after a trace, starting from a: zeroed by each
dial, increased by each chunk. -/
def counterAfter (evs : List FwdEvent) (a : Nat) : Nat :=
  evs.foldl (fun acc e =>
    match e with
    | FwdEvent.dial _ => 0
    | FwdEvent.chunk n => acc + n) a

/-- Bytes counted since the most recent dial of the trace. -/
def bytesSinceLastDial (evs : List FwdEvent) : Nat := counterAfter evs 0

/-- The registry bytesSent value after a trace, given the closure
counter a and the stored value b at the start: a chunk stores the new
counter, a dial only resets the counter and leaves the stored value. -/
def bytesRegistry : List FwdEvent → Nat → Nat → Nat
  | [], _, b => b
  | FwdEvent.dial _ :: evs, _, b => bytesRegistry evs 0 b
  | FwdEvent.chunk n :: evs, a, _ => bytesRegistry evs (a + n) (a + n)

/-- A connection entry used for closed evaluations of the forwarding
model. -/
def c6Conn : Conn := { id := "s", connectedAt := 0 }

/-- A trace with a station switch between two chunks: ten bytes from the
first upstream, then three from the second. -/
def c6Trace : List FwdEvent :=
  [FwdEvent.dial "A", FwdEvent.chunk 10, FwdEvent.dial "B", FwdEvent.chunk 3]

/-! ## GPGGA request handling and the session event loop -/

/-- An upstream (caster) socket as the session sees it. -/
structure Socket where
  sockId : Nat
  mountPoint : String
  destroyed : Bool
deriving DecidableEq

/-- Observable actions of one run of handleGpggaRequest. -/
inductive HandlerAct where
  | closeUpstream (sockId : Nat) : HandlerAct
  | dialUpstream (mountPoint : String) : HandlerAct
deriving DecidableEq

/-- Embedding of handleGpggaRequest (server.js lines 135-234) as a pure
function from the request, the current caster socket and the outcome of
the awaited dial (dialOk false models the catch of lines 227-230, which
returns the current socket) to the actions performed and the returned
caster socket.  The NMEA log append and the registry updates do not
affect the binding and are left to the forwarding model. -/
def handleGpggaRequest (dist : JsNum → JsNum → JsNum → JsNum → JsNum)
    (stations : List Station) (request : String)
    (currentCasterSocket : Option Socket) (dialOk : Bool) (newSockId : Nat) :
    List HandlerAct × Option Socket :=
  match parseGPGGA request with
  | none => ([], currentCasterSocket)
  | some nmeaMessage =>
    if !(jsTruthy nmeaMessage.latitude) || !(jsTruthy nmeaMessage.longitude) then
      ([], currentCasterSocket)
    else
      match findClosestStation dist nmeaMessage.latitude nmeaMessage.longitude stations with
      | none => ([], currentCasterSocket)
      | some closestStation =>
        let needNew : Bool :=
          match currentCasterSocket with
          | none => true
          | some s => s.mountPoint ≠ closestStation.1.mountPoint || s.destroyed
        if needNew then
          let closes : List HandlerAct :=
            match currentCasterSocket with
            | some s => [HandlerAct.closeUpstream s.sockId]
            | none => []
          if dialOk then
            (closes ++ [HandlerAct.dialUpstream closestStation.1.mountPoint],
             some { sockId := newSockId, mountPoint := closestStation.1.mountPoint,
                    destroyed := false })
          else
            (closes ++ [HandlerAct.dialUpstream closestStation.1.mountPoint],
             currentCasterSocket)
        else ([], currentCasterSocket)

/-- A pending dial: one in-flight run of handleGpggaRequest suspended at
the await of connectToNtripCaster, remembering the station it dials. -/
structure PendingDial where
  station : Station
deriving DecidableEq

/-- State of one rover session as managed by handleClient (server.js
lines 42-124): the casterSocket variable, the dials in flight, the
upstream sockets opened and not yet ended, and a counter for fresh
socket identities. -/
structure SessionState where
  casterSocket : Option Socket
  pendingDials : List PendingDial
  openUpstreams : List Socket
  nextSockId : Nat
deriving DecidableEq

/-- Events of the session event loop: a data event carrying a GPGGA
sentence, and the resolution of the k-th pending dial. -/
inductive SessionEvent where
  | gpggaData (request : String) : SessionEvent
  | dialResolved (k : Nat) : SessionEvent
deriving DecidableEq

/-- One step of the session event loop.  A gpggaData event runs
handleGpggaRequest synchronously up to the await of the dial, passing
the casterSocket variable as it is at that moment (server.js line 79):
when a switch is needed it ends the captured socket and leaves the dial
pending.  The casterSocket variable is only assigned by the
then-callback after the dial resolves (server.js lines 80-82), so a
second sentence processed before resolution still sees the old value
and is not serialized against the in-flight dial. -/
def sessionStep (dist : JsNum → JsNum → JsNum → JsNum → JsNum) (stations : List Station)
    (st : SessionState) : SessionEvent → SessionState
  | SessionEvent.gpggaData request =>
    match parseGPGGA request with
    | none => st
    | some msg =>
      if !(jsTruthy msg.latitude) || !(jsTruthy msg.longitude) then st
      else
        match findClosestStation dist msg.latitude msg.longitude stations with
        | none => st
        | some closestStation =>
          let needNew : Bool :=
            match st.casterSocket with
            | none => true
            | some s => s.mountPoint ≠ closestStation.1.mountPoint || s.destroyed
          if needNew then
            { st with
              openUpstreams :=
                match st.casterSocket with
                | some s => st.openUpstreams.filter (fun t => t.sockId ≠ s.sockId)
                | none => st.openUpstreams,
              pendingDials := st.pendingDials ++ [{ station := closestStation.1 }] }
          else st
  | SessionEvent.dialResolved k =>
    match st.pendingDials[k]? with
    | none => st
    | some pd =>
      let sock : Socket :=
        { sockId := st.nextSockId, mountPoint := pd.station.mountPoint, destroyed := false }
      { casterSocket := some sock,
        pendingDials := st.pendingDials.eraseIdx k,
        openUpstreams := st.openUpstreams ++ [sock],
        nextSockId := st.nextSockId + 1 }

/-- Run of the session event loop over a trace of events. -/
def sessionRun (dist : JsNum → JsNum → JsNum → JsNum → JsNum) (stations : List Station)
    (st : SessionState) (evs : List SessionEvent) : SessionState :=
  evs.foldl (sessionStep dist stations) st

/-- The initial session state of handleClient (server.js line 43). -/
def sessionInit : SessionState :=
  { casterSocket := none, pendingDials := [], openUpstreams := [], nextSockId := 0 }

/-- The single configured station of the closed session scenarios. -/
def c5Station : Station := { mountPoint := "A", latitude := num 37, longitude := num (-121) }

/-- A socket already bound to the mount point of c5Station. -/
def c5Sock : Socket := { sockId := 7, mountPoint := "A", destroyed := false }

/-- A throwaway record used as the getD fallback when extracting the
value of a parse known to succeed. -/
def dummyGpgga : GpggaRecord :=
  { time := "", latitude := JsNum.nan, longitude := JsNum.nan, fixQuality := num 0,
    numSatellites := num 0, horizontalDilution := num 0, altitude := num 0,
    altitudeUnit := "", heightOfGeoid := num 0, heightOfGeoidUnit := "",
    lastDGPSUpdate := "", DGPSReferenceStationID := "" }

/-- A connection closed at time 100, far older than the retention
window. -/
def c8OldConn : Conn :=
  { id := "old", connectedAt := 0, disconnectedAt := some 100, active := false,
    nmeaLogFile := "old.nmea.log" }

/-- A connection still open, connected exactly at the cutoff. -/
def c8NewConn : Conn :=
  { id := "new", connectedAt := 604800000, nmeaLogFile := "new.nmea.log" }

/-! ## Theorems: basic properties of the JavaScript order -/

theorem JsNum.jsLt_irrefl (a : JsNum) : jsLt a a = false := by
  cases a <;> simp [jsLt]

theorem JsNum.jsLt_trans {a b c : JsNum} (h₁ : jsLt a b = true) (h₂ : jsLt b c = true) :
    jsLt a c = true := by
  cases a <;> cases b <;> cases c <;> simp_all [jsLt] <;> linarith

theorem JsNum.jsLt_total {a b : JsNum} (ha : isNaNb a = false) (hb : isNaNb b = false)
    (h : jsLt a b = false) : jsLt b a = true ∨ b = a := by
  cases a <;> cases b <;> simp_all [jsLt, isNaNb]
  rename_i qa qb
  rcases lt_trichotomy qa qb with hlt | heq | hgt
  · linarith
  · exact Or.inr heq.symm
  · exact Or.inl hgt

/-! ## Theorems: list helpers -/

theorem getD_set_ne {α : Type} (i j : Nat) (h : i ≠ j) (l : List α) (a d : α) :
    (l.set i a).getD j d = l.getD j d := by
  induction l generalizing i j with
  | nil => rfl
  | cons x xs ih =>
    cases i with
    | zero =>
      cases j with
      | zero => exact absurd rfl h
      | succ j => rfl
    | succ i =>
      cases j with
      | zero => rfl
      | succ j => exact ih i j (fun hh => h (by rw [hh]))

theorem getD_set_self {α : Type} (i : Nat) (l : List α) (a d : α) (h : i < l.length) :
    (l.set i a).getD i d = a := by
  induction l generalizing i with
  | nil => simp at h
  | cons x xs ih =>
    cases i with
    | zero => rfl
    | succ i => exact ih i (Nat.lt_of_succ_lt_succ h)

/-- Field lists with fewer than 15 entries are always rejected. -/
theorem parseGPGGAFields_short (fields : List String) (h : fields.length < 15) :
    parseGPGGAFields fields = none := by
  unfold parseGPGGAFields
  by_cases h0 : fields.getD 0 "" ≠ "$GNGGA"
  · rw [if_pos h0]
  · rw [if_neg h0, if_pos h]

/-! ## Theorems: claims C9, C4, C7, C10 -/

/-- C9 counterexample: the claim says parseLatLon fails (throws) exactly
when the input is not a finite number, but on positive infinity, which is
not finite, the source does not throw: the isNaN guard passes and the
arithmetic yields NaN. -/
theorem c9_parseLatLon_infinity_counterexample :
    JsNum.isFinite JsNum.inf = false ∧ parseLatLon JsNum.inf = Except.ok JsNum.nan := by
  constructor
  · rfl
  · rfl

/-- C9 amended: for every finite input q, parseLatLon computes
degrees = floor(q/100), minutes = q - 100*degrees, result
degrees + minutes/60 (and in particular maps 100*D + M to D + M/60 for
whole degrees D and minutes 0 ≤ M < 60); it throws exactly when the
input is NaN, and returns NaN (rather than throwing) on the two
infinities. -/
theorem c9_parseLatLon_amended :
    (∀ q : ℚ, parseLatLon (num q) =
      Except.ok (num ((⌊q / 100⌋ : ℚ) + (q - (⌊q / 100⌋ : ℚ) * 100) / 60)))
    ∧ (∀ (D : ℕ) (M : ℚ), D ≤ 180 → 0 ≤ M → M < 60 →
        parseLatLon (num (100 * D + M)) = Except.ok (num (D + M / 60)))
    ∧ parseLatLon JsNum.nan = Except.error ()
    ∧ parseLatLon JsNum.inf = Except.ok JsNum.nan
    ∧ parseLatLon JsNum.ninf = Except.ok JsNum.nan := by
  refine ⟨?_, ?_, rfl, rfl, rfl⟩
  · intro q
    simp only [parseLatLon, isNaNb, jsDiv, jsFloor, jsMul, jsSub, jsNeg, jsAdd]
    by_cases h100 : (100 : ℚ) = 0
    · norm_num at h100
    · simp only [if_neg h100]
      norm_num
      ring_nf
  · intro D M hD hM0 hM
    have hfloor : ⌊(100 * (D : ℚ) + M) / 100⌋ = (D : ℤ) := by
      rw [Int.floor_eq_iff]
      constructor
      · push_cast
        rw [le_div_iff (by norm_num : (0:ℚ) < 100)]
        linarith
      · push_cast
        rw [div_lt_iff (by norm_num : (0:ℚ) < 100)]
        linarith
    simp only [parseLatLon, isNaNb, jsDiv, jsFloor, jsMul, jsSub, jsNeg, jsAdd]
    norm_num [hfloor]
    ring_nf

/-- C9 witness: the amended theorem applied at the concrete NMEA value
3730.00 (37 degrees 30 minutes), giving 37.5 decimal degrees. -/
theorem c9_parseLatLon_amended_witness :
    parseLatLon (num (100 * (37 : ℕ) + (30 : ℚ))) = Except.ok (num ((37 : ℕ) + (30 : ℚ) / 60)) :=
  c9_parseLatLon_amended.2.1 37 30 (by norm_num) (by norm_num) (by norm_num)

/-- C4: the repository test suite feeds parseGPGGA a well-formed sentence
with the GPGGA identifier and expects a parsed record, but the field
check of the source accepts only the GNGGA identifier, so the test
sentence is rejected while its GNGGA variant parses. -/
theorem c4_gpgga_identifier_rejected :
    parseGPGGA testGpggaSentence = none
    ∧ (parseGPGGA testGnggaSentence).isSome = true := by
  constructor
  · decide
  · decide

/-- C7: the result of parseGPGGA does not depend on the checksum part of
the sentence: two sentences that split into the same data part followed
by any two checksum strings parse to identical records, so a mismatched
checksum is never a reason for rejection (the source only logs it). -/
theorem c7_checksum_mismatch_ignored (s₁ s₂ d c₁ c₂ : String)
    (h₁ : jsSplit s₁ '*' = [d, c₁]) (h₂ : jsSplit s₂ '*' = [d, c₂]) :
    parseGPGGA s₁ = parseGPGGA s₂ := by
  have e₁ : s₁ ≠ "" := by
    intro h
    subst h
    have : jsSplit "" '*' = [""] := rfl
    rw [this] at h₁
    have hl := congrArg List.length h₁
    simp at hl
  have e₂ : s₂ ≠ "" := by
    intro h
    subst h
    have : jsSplit "" '*' = [""] := rfl
    rw [this] at h₂
    have hl := congrArg List.length h₂
    simp at hl
  unfold parseGPGGA
  rw [if_neg e₁, if_neg e₂, h₁, h₂]

/-- C7 witness: the checksum-ignoring theorem applied to a concrete
well-formed sentence and the same sentence with checksum 00 in place of
the correct 6A; both parse, to the same record. -/
theorem c7_checksum_mismatch_ignored_witness :
    jsSplit c7GoodSentence '*' = [c7Data, "6A"]
    ∧ jsSplit c7BadSentence '*' = [c7Data, "00"]
    ∧ gpggaChecksum c7Data = "6A"
    ∧ gpggaChecksum c7Data ≠ "00"
    ∧ parseGPGGA c7GoodSentence = parseGPGGA c7BadSentence
    ∧ (parseGPGGA c7BadSentence).isSome = true :=
  ⟨by decide, by decide, by decide, by decide,
   c7_checksum_mismatch_ignored c7GoodSentence c7BadSentence c7Data "6A" "00"
     (by decide) (by decide),
   by decide⟩

/-- C10: the field stage of parseGPGGA negates the latitude for every
value of the latitude-hemisphere field other than exactly N, and the
longitude for every value of the longitude-hemisphere field other than
exactly E, including empty or malformed hemisphere values: parsing with
any non-N (resp. non-E) value there yields exactly the record of the N
(resp. E) variant with that coordinate negated. -/
theorem c10_hemisphere_negation (fields : List String) (hlat hlon : String)
    (g₁ : hlat ≠ "N") (g₂ : hlon ≠ "E") :
    parseGPGGAFields (fields.set 3 hlat)
      = (parseGPGGAFields (fields.set 3 "N")).map
          (fun r => { r with latitude := jsNeg r.latitude })
    ∧ parseGPGGAFields (fields.set 5 hlon)
      = (parseGPGGAFields (fields.set 5 "E")).map
          (fun r => { r with longitude := jsNeg r.longitude }) := by
  constructor
  · by_cases hlen : fields.length < 15
    · rw [parseGPGGAFields_short _ (by simpa using hlen),
          parseGPGGAFields_short _ (by simpa using hlen)]
      rfl
    · have h3 : 3 < fields.length := by omega
      simp only [parseGPGGAFields, List.length_set,
        getD_set_ne 3 0 (by decide), getD_set_ne 3 1 (by decide),
        getD_set_ne 3 2 (by decide), getD_set_ne 3 4 (by decide),
        getD_set_ne 3 5 (by decide), getD_set_ne 3 6 (by decide),
        getD_set_ne 3 7 (by decide), getD_set_ne 3 8 (by decide),
        getD_set_ne 3 9 (by decide), getD_set_ne 3 10 (by decide),
        getD_set_ne 3 11 (by decide), getD_set_ne 3 12 (by decide),
        getD_set_ne 3 13 (by decide), getD_set_ne 3 14 (by decide),
        getD_set_self 3 fields hlat "" h3, getD_set_self 3 fields "N" "" h3]
      cases parseLatLon (jsParseFloat (fields.getD 2 "")) with
      | error e => split_ifs <;> rfl
      | ok la =>
        cases parseLatLon (jsParseFloat (fields.getD 4 "")) with
        | error e => split_ifs <;> rfl
        | ok lo => split_ifs <;> simp_all
  · by_cases hlen : fields.length < 15
    · rw [parseGPGGAFields_short _ (by simpa using hlen),
          parseGPGGAFields_short _ (by simpa using hlen)]
      rfl
    · have h5 : 5 < fields.length := by omega
      simp only [parseGPGGAFields, List.length_set,
        getD_set_ne 5 0 (by decide), getD_set_ne 5 1 (by decide),
        getD_set_ne 5 2 (by decide), getD_set_ne 5 3 (by decide),
        getD_set_ne 5 4 (by decide), getD_set_ne 5 6 (by decide),
        getD_set_ne 5 7 (by decide), getD_set_ne 5 8 (by decide),
        getD_set_ne 5 9 (by decide), getD_set_ne 5 10 (by decide),
        getD_set_ne 5 11 (by decide), getD_set_ne 5 12 (by decide),
        getD_set_ne 5 13 (by decide), getD_set_ne 5 14 (by decide),
        getD_set_self 5 fields hlon "" h5, getD_set_self 5 fields "E" "" h5]
      cases parseLatLon (jsParseFloat (fields.getD 2 "")) with
      | error e => split_ifs <;> rfl
      | ok la =>
        cases parseLatLon (jsParseFloat (fields.getD 4 "")) with
        | error e => split_ifs <;> rfl
        | ok lo => split_ifs <;> simp_all

/-- C10 witness: the hemisphere-negation theorem applied to a concrete
field list with the malformed hemisphere value Q in the latitude and
longitude hemisphere fields. -/
theorem c10_hemisphere_negation_witness :
    ("Q" : String) ≠ "N" ∧ ("Q" : String) ≠ "E" ∧
    (parseGPGGAFields (c10Fields.set 3 "Q")
      = (parseGPGGAFields (c10Fields.set 3 "N")).map
          (fun r => { r with latitude := jsNeg r.latitude })
    ∧ parseGPGGAFields (c10Fields.set 5 "Q")
      = (parseGPGGAFields (c10Fields.set 5 "E")).map
          (fun r => { r with longitude := jsNeg r.longitude })) :=
  ⟨by decide, by decide, c10_hemisphere_negation c10Fields "Q" "Q" (by decide) (by decide)⟩

/-! ## Theorems: claim C1 -/

theorem listGet?_append {α : Type} (l l' : List α) (n : Nat) (h : n < l.length) :
    (l ++ l')[n]? = l[n]? := by
  induction l generalizing n with
  | nil => simp at h
  | cons x xs ih =>
    cases n with
    | zero => simp
    | succ n =>
      simp only [List.cons_append, List.getElem?_cons_succ]
      exact ih n (Nat.lt_of_succ_lt_succ h)

theorem listGet?_concat_self {α : Type} (l : List α) (a : α) : (l ++ [a])[l.length]? = some a := by
  induction l with
  | nil => rfl
  | cons x xs ih =>
    simp only [List.cons_append, List.length_cons, List.getElem?_cons_succ]
    exact ih

theorem listGet?_mem {α : Type} {l : List α} {n : Nat} {a : α} (h : l[n]? = some a) : a ∈ l := by
  induction l generalizing n with
  | nil => simp at h
  | cons x xs ih =>
    cases n with
    | zero =>
      simp only [List.getElem?_cons_zero, Option.some.injEq] at h
      subst h
      exact List.mem_cons_self _ _
    | succ n =>
      simp only [List.getElem?_cons_succ] at h
      exact List.mem_cons_of_mem _ (ih h)

theorem listGet?_lt {α : Type} {l : List α} {n : Nat} {a : α} (h : l[n]? = some a) :
    n < l.length := by
  induction l generalizing n with
  | nil => simp at h
  | cons x xs ih =>
    cases n with
    | zero => simp
    | succ n =>
      simp only [List.getElem?_cons_succ] at h
      exact Nat.succ_lt_succ (ih h)

theorem closestFold_append (key : Station → JsNum) (l : List Station) (x : Station) :
    closestFold key (l ++ [x]) =
      match closestFold key l with
      | none => some (x, key x)
      | some c => if jsLt (key x) c.2 then some (x, key x) else some c := by
  unfold closestFold
  rw [List.foldl_append]
  rfl

/-- The fold of findClosestStation returns the first minimum: an element
at some index i whose key is not beaten by any element of the list and
which strictly beats every element before index i. -/
theorem closestFold_min (key : Station → JsNum) (l : List Station) :
    l ≠ [] → (∀ x ∈ l, isNaNb (key x) = false) →
    ∃ (i : Nat) (st : Station),
      l[i]? = some st
      ∧ closestFold key l = some (st, key st)
      ∧ (∀ x ∈ l, jsLt (key x) (key st) = false)
      ∧ (∀ j x, j < i → l[j]? = some x → jsLt (key st) (key x) = true) := by
  induction l using List.reverseRecOn with
  | nil => intro h; exact absurd rfl h
  | append_singleton l x ih =>
    intro _ hnn
    by_cases hl : l = []
    · subst hl
      refine ⟨0, x, rfl, rfl, ?_, ?_⟩
      · intro y hy
        rcases List.mem_singleton.mp (by simpa using hy) with rfl
        exact jsLt_irrefl _
      · intro j y hj hy
        omega
    · obtain ⟨i, st, hg, hf, hmin, htie⟩ := ih hl (fun y hy => hnn y (List.mem_append_left _ hy))
      have hx : isNaNb (key x) = false :=
        hnn x (List.mem_append_right _ (List.mem_singleton_self x))
      have hst : isNaNb (key st) = false := hnn st (List.mem_append_left _ (listGet?_mem hg))
      have hilt : i < l.length := listGet?_lt hg
      rw [closestFold_append, hf]
      dsimp only
      by_cases h : jsLt (key x) (key st) = true
      · rw [if_pos h]
        refine ⟨l.length, x, listGet?_concat_self l x, rfl, ?_, ?_⟩
        · intro y hy
          rcases List.mem_append.mp hy with hy | hy
          · by_contra hc
            have hc' : jsLt (key y) (key x) = true := by
              revert hc
              cases jsLt (key y) (key x) <;> simp
            have ht := jsLt_trans hc' h
            rw [hmin y hy] at ht
            exact absurd ht (by simp)
          · rcases List.mem_singleton.mp hy with rfl
            exact jsLt_irrefl _
        · intro j y hj hy
          rw [listGet?_append l [x] j hj] at hy
          have hy' : isNaNb (key y) = false := hnn y (List.mem_append_left _ (listGet?_mem hy))
          by_cases hji : j < i
          · exact jsLt_trans h (htie j y hji hy)
          · have hyst : jsLt (key y) (key st) = false := hmin y (listGet?_mem hy)
            rcases jsLt_total hy' hst hyst with hlt | heq
            · exact jsLt_trans h hlt
            · rw [heq] at h
              exact h
      · have h' : jsLt (key x) (key st) = false := by
          revert h
          cases jsLt (key x) (key st) <;> simp
        rw [if_neg (by simp [h'])]
        refine ⟨i, st, ?_, rfl, ?_, ?_⟩
        · rw [listGet?_append l [x] i hilt]
          exact hg
        · intro y hy
          rcases List.mem_append.mp hy with hy | hy
          · exact hmin y hy
          · rcases List.mem_singleton.mp hy with rfl
            exact h'
        · intro j y hj hy
          rw [listGet?_append l [x] j (lt_trans hj hilt)] at hy
          exact htie j y hj hy

/-- C1 counterexample: the claim says stations are considered exactly
when their coordinates are finite and that the result is absent when no
station passes that filter, but a single station with infinite latitude
passes the isNaN filter of the source and is returned even though the
finite filter of the claim is empty. -/
theorem c1_closest_station_counterexample :
    List.filter specFiniteFilter [infStation] = []
    ∧ findClosestStation distZero (num 0) (num 0) [infStation]
        = some (infStation, num 0) := by
  constructor
  · decide
  · decide

/-- C1 amended: findClosestStation considers exactly the stations whose
active flag is true or absent and whose coordinates are not NaN (rather
than finite); it returns none exactly when the query latitude or
longitude is NaN or no station passes that filter, and otherwise returns
a considered station, with its distance attached, such that no
considered station has a strictly smaller distance and every considered
station before it in iteration order has a strictly larger distance
(first-minimum tie-break).  The distances are assumed non-NaN, which the
try/catch of calculateDistance guarantees. -/
theorem c1_closest_station_amended (dist : JsNum → JsNum → JsNum → JsNum → JsNum)
    (user_lat user_lon : JsNum) (stations : List Station)
    (hnn : ∀ st ∈ stations.filter stationFilter,
        isNaNb (dist user_lat user_lon st.latitude st.longitude) = false) :
    (findClosestStation dist user_lat user_lon stations = none
      ↔ ((isNaNb user_lat || isNaNb user_lon) = true ∨ stations.filter stationFilter = []))
    ∧ (stations.filter stationFilter ≠ [] →
       isNaNb user_lat = false → isNaNb user_lon = false →
       ∃ (i : Nat) (st : Station),
         (stations.filter stationFilter)[i]? = some st
         ∧ findClosestStation dist user_lat user_lon stations
             = some (st, dist user_lat user_lon st.latitude st.longitude)
         ∧ (∀ t ∈ stations.filter stationFilter,
             jsLt (dist user_lat user_lon t.latitude t.longitude)
                  (dist user_lat user_lon st.latitude st.longitude) = false)
         ∧ (∀ (j : Nat) (t : Station), j < i → (stations.filter stationFilter)[j]? = some t →
             jsLt (dist user_lat user_lon st.latitude st.longitude)
                  (dist user_lat user_lon t.latitude t.longitude) = true)) := by
  constructor
  · simp only [findClosestStation]
    by_cases hs : stations.isEmpty
    · rw [if_pos hs]
      have hnil : stations = [] := List.isEmpty_iff.mp hs
      subst hnil
      simp
    · rw [if_neg hs]
      by_cases hn : (isNaNb user_lat || isNaNb user_lon) = true
      · rw [if_pos hn]
        simp [hn]
      · rw [if_neg hn]
        by_cases ha : (stations.filter stationFilter).isEmpty
        · rw [if_pos ha]
          simp [hn, List.isEmpty_iff.mp ha]
        · rw [if_neg ha]
          have hne : stations.filter stationFilter ≠ [] := by
            intro hh
            exact ha (by simp [hh])
          obtain ⟨i, st, hg, hf, hmin, htie⟩ := closestFold_min
            (fun station => dist user_lat user_lon station.latitude station.longitude)
            (stations.filter stationFilter) hne hnn
          rw [hf]
          simp [hn, hne]
  · intro hne hlat hlon
    obtain ⟨i, st, hg, hf, hmin, htie⟩ := closestFold_min
      (fun station => dist user_lat user_lon station.latitude station.longitude)
      (stations.filter stationFilter) hne hnn
    refine ⟨i, st, hg, ?_, hmin, htie⟩
    simp only [findClosestStation]
    have g₁ : stations.isEmpty = false := by
      cases hstations : stations with
      | nil =>
        rw [hstations] at hne
        simp at hne
      | cons y ys => rfl
    have g₂ : (isNaNb user_lat || isNaNb user_lon) = false := by simp [hlat, hlon]
    have g₃ : (stations.filter stationFilter).isEmpty = false := by
      cases hfs : stations.filter stationFilter with
      | nil => exact absurd hfs hne
      | cons y ys => rfl
    rw [if_neg (by simp [g₁]), if_neg (by simp [g₂]), if_neg (by simp [g₃])]
    exact hf

/-- C1 witness: the amended theorem applied to a concrete query and a
concrete station list with an implicitly active, an explicitly active
and an inactive station, under the latitude-valued distance function. -/
theorem c1_closest_station_amended_witness :
    (∀ st ∈ c1Stations.filter stationFilter,
        isNaNb (distLat (num 0) (num 0) st.latitude st.longitude) = false)
    ∧ ((findClosestStation distLat (num 0) (num 0) c1Stations = none
      ↔ ((isNaNb (num 0) || isNaNb (num 0)) = true ∨ c1Stations.filter stationFilter = []))
    ∧ (c1Stations.filter stationFilter ≠ [] →
       isNaNb (num 0) = false → isNaNb (num 0) = false →
       ∃ (i : Nat) (st : Station),
         (c1Stations.filter stationFilter)[i]? = some st
         ∧ findClosestStation distLat (num 0) (num 0) c1Stations
             = some (st, distLat (num 0) (num 0) st.latitude st.longitude)
         ∧ (∀ t ∈ c1Stations.filter stationFilter,
             jsLt (distLat (num 0) (num 0) t.latitude t.longitude)
                  (distLat (num 0) (num 0) st.latitude st.longitude) = false)
         ∧ (∀ (j : Nat) (t : Station), j < i → (c1Stations.filter stationFilter)[j]? = some t →
             jsLt (distLat (num 0) (num 0) st.latitude st.longitude)
                  (distLat (num 0) (num 0) t.latitude t.longitude) = true))) :=
  ⟨by decide, c1_closest_station_amended distLat (num 0) (num 0) c1Stations (by decide)⟩

/-! ## Theorems: claims C3, C2, C5 -/

/-- C3 counterexample: before a reload over a corrupt existing file,
getConfig returns the custom snapshot; the failed reload publishes the
built-in defaults instead of retaining that snapshot, surfaces no error,
and getConfig afterwards returns the defaults, which differ from the
snapshot it returned before. -/
theorem c3_reload_counterexample :
    (getConfig true ConfigFile.corrupt (some customConfig)).1 = Except.ok customConfig
    ∧ (reloadConfig true ConfigFile.corrupt (some customConfig)).2 = some DEFAULT_CONFIG
    ∧ (reloadConfig true ConfigFile.corrupt (some customConfig)).1 = Except.ok DEFAULT_CONFIG
    ∧ (getConfig true ConfigFile.corrupt
        (reloadConfig true ConfigFile.corrupt (some customConfig)).2).1
        = Except.ok DEFAULT_CONFIG
    ∧ DEFAULT_CONFIG ≠ customConfig :=
  ⟨rfl, rfl, rfl, rfl, by decide⟩

/-- C3 amended: a reload that parses publishes the parsed snapshot; a
reload over an existing but unparseable file publishes a copy of the
built-in defaults, replacing rather than retaining the previous
snapshot, and surfaces no error; only when the file is missing and
writing the defaults fails does reload surface an error and leave the
snapshot unchanged; getConfig with a stored snapshot returns exactly
that snapshot. -/
theorem c3_reload_amended (c : ServerConfig) (prev : Option ServerConfig) :
    reloadConfig true (ConfigFile.valid c) prev = (Except.ok c, some c)
    ∧ reloadConfig true ConfigFile.corrupt prev
        = (Except.ok DEFAULT_CONFIG, some DEFAULT_CONFIG)
    ∧ reloadConfig false ConfigFile.missing prev
        = (Except.error "Could not load configuration file", prev)
    ∧ reloadConfig true ConfigFile.missing prev
        = (Except.ok DEFAULT_CONFIG, some DEFAULT_CONFIG)
    ∧ getConfig true ConfigFile.corrupt (some c) = (Except.ok c, some c) :=
  ⟨rfl, rfl, rfl, rfl, rfl⟩

/-- C2: two GPGGA data events processed while the first upstream dial is
still in flight each start a dial, because the casterSocket variable the
handler captures is only assigned by the then-callback after the dial
resolves; so two dials for the same session are pending concurrently,
and after both resolve two upstream sockets are open at once, the first
one never ended, with the binding left on the second.  This exhibits the
violation of the serialization and at-most-one-upstream-link invariants
that the claim states. -/
theorem c2_concurrent_dials_evidence :
    (sessionRun distZero [c5Station] sessionInit
        [SessionEvent.gpggaData testGnggaSentence,
         SessionEvent.gpggaData testGnggaSentence]).pendingDials.length = 2
    ∧ (sessionRun distZero [c5Station] sessionInit
        [SessionEvent.gpggaData testGnggaSentence,
         SessionEvent.gpggaData testGnggaSentence,
         SessionEvent.dialResolved 0, SessionEvent.dialResolved 0]).openUpstreams.length = 2
    ∧ (sessionRun distZero [c5Station] sessionInit
        [SessionEvent.gpggaData testGnggaSentence,
         SessionEvent.gpggaData testGnggaSentence,
         SessionEvent.dialResolved 0, SessionEvent.dialResolved 0]).casterSocket
        = some { sockId := 1, mountPoint := "A", destroyed := false } := by
  refine ⟨by decide, by decide, by decide⟩

/-- C5: when the session is already bound to a non-destroyed socket on
station m and nearest-station selection yields m again, the handler
performs no close and no dial and returns the existing binding
unchanged; in particular processing the same GPGGA sentence twice in
succession dials at most once. -/
theorem c5_no_redial (dist : JsNum → JsNum → JsNum → JsNum → JsNum)
    (stations : List Station) (request : String) (sock : Socket)
    (dialOk : Bool) (newSockId : Nat) (msg : GpggaRecord)
    (hp : parseGPGGA request = some msg)
    (hlat : jsTruthy msg.latitude = true) (hlon : jsTruthy msg.longitude = true)
    (closest : Station × JsNum)
    (hc : findClosestStation dist msg.latitude msg.longitude stations = some closest)
    (hmp : sock.mountPoint = closest.1.mountPoint)
    (hdes : sock.destroyed = false) :
    handleGpggaRequest dist stations request (some sock) dialOk newSockId = ([], some sock) := by
  unfold handleGpggaRequest
  rw [hp]
  try dsimp only
  rw [hlat, hlon]
  try dsimp only
  rw [hc]
  try dsimp only
  simp [hmp, hdes]

/-- C5 witness: the no-redial theorem applied to the concrete test
sentence, the single station A and a socket already bound to A. -/
theorem c5_no_redial_witness :
    handleGpggaRequest distZero [c5Station] testGnggaSentence (some c5Sock) true 9
      = ([], some c5Sock) :=
  c5_no_redial distZero [c5Station] testGnggaSentence c5Sock true 9
    ((parseGPGGA testGnggaSentence).getD dummyGpgga) (by decide) (by decide) (by decide)
    ((findClosestStation distZero
        ((parseGPGGA testGnggaSentence).getD dummyGpgga).latitude
        ((parseGPGGA testGnggaSentence).getD dummyGpgga).longitude
        [c5Station]).getD (c5Station, num 0))
    (by decide) (by decide) (by decide)

/-! ## Theorems: claim C8 -/

/-- C8: removeConnection retains the entry, marking it inactive with the
disconnect timestamp and leaving every other entry unchanged; the purge
removes exactly the entries whose disconnectedAt (or connectedAt when
never disconnected) is strictly older than now minus the seven-day
window, and deletes exactly the log files owned by a removed entry; the
sweep interval constant is six hours and the window constant seven
days. -/
theorem c8_retention_purge (id : String) (now : Int) (reg : List Conn) (files : List String) :
    (removeConnection id now reg).length = reg.length
    ∧ (∀ c ∈ reg, c.id = id →
        { c with active := false, disconnectedAt := some now } ∈ removeConnection id now reg)
    ∧ (∀ c ∈ reg, c.id ≠ id → c ∈ removeConnection id now reg)
    ∧ (∀ c : Conn, c ∈ (purgeOldConnections now reg files).1
        ↔ c ∈ reg ∧ ¬(dateToCompare c < now - CONNECTION_HISTORY_MS))
    ∧ (∀ f : String, f ∈ (purgeOldConnections now reg files).2
        ↔ f ∈ files ∧ ¬∃ c ∈ reg, dateToCompare c < now - CONNECTION_HISTORY_MS ∧ c.nmeaLogFile = f)
    ∧ PURGE_INTERVAL_MS = 6 * 60 * 60 * 1000
    ∧ CONNECTION_HISTORY_MS = 7 * 24 * 60 * 60 * 1000 := by
  refine ⟨?_, ?_, ?_, ?_, ?_, by decide, by decide⟩
  · unfold removeConnection
    split
    · simp
    · rfl
  · intro c hc hid
    unfold removeConnection
    rw [if_pos (List.any_eq_true.mpr ⟨c, hc, by simp [hid]⟩)]
    refine List.mem_map.mpr ⟨c, hc, ?_⟩
    rw [if_pos hid]
  · intro c hc hid
    unfold removeConnection
    split
    · exact List.mem_map.mpr ⟨c, hc, by rw [if_neg hid]⟩
    · exact hc
  · intro c
    unfold purgeOldConnections
    simp [List.mem_filter]
  · intro f
    unfold purgeOldConnections
    simp [List.mem_filter, List.any_eq_true]

/-- C8 witness: the retention theorem applied to a concrete registry
with one entry far beyond the window and one exactly at the cutoff, with
the two log files present. -/
theorem c8_retention_purge_witness :
    (removeConnection "old" 1209600000 [c8OldConn, c8NewConn]).length
        = [c8OldConn, c8NewConn].length
    ∧ (∀ c ∈ [c8OldConn, c8NewConn], c.id = "old" →
        { c with active := false, disconnectedAt := some 1209600000 }
          ∈ removeConnection "old" 1209600000 [c8OldConn, c8NewConn])
    ∧ (∀ c ∈ [c8OldConn, c8NewConn], c.id ≠ "old" →
        c ∈ removeConnection "old" 1209600000 [c8OldConn, c8NewConn])
    ∧ (∀ c : Conn, c ∈ (purgeOldConnections 1209600000 [c8OldConn, c8NewConn]
          ["old.nmea.log", "new.nmea.log"]).1
        ↔ c ∈ [c8OldConn, c8NewConn] ∧ ¬(dateToCompare c < 1209600000 - CONNECTION_HISTORY_MS))
    ∧ (∀ f : String, f ∈ (purgeOldConnections 1209600000 [c8OldConn, c8NewConn]
          ["old.nmea.log", "new.nmea.log"]).2
        ↔ f ∈ ["old.nmea.log", "new.nmea.log"]
          ∧ ¬∃ c ∈ [c8OldConn, c8NewConn],
              dateToCompare c < 1209600000 - CONNECTION_HISTORY_MS ∧ c.nmeaLogFile = f)
    ∧ PURGE_INTERVAL_MS = 6 * 60 * 60 * 1000
    ∧ CONNECTION_HISTORY_MS = 7 * 24 * 60 * 60 * 1000 :=
  c8_retention_purge "old" 1209600000 [c8OldConn, c8NewConn] ["old.nmea.log", "new.nmea.log"]

/-! ## Theorems: claim C6 -/

theorem lookupBytesSent_map (id : String) (f : Conn → Conn) (hid : ∀ c, (f c).id = c.id)
    (reg : List Conn) :
    lookupBytesSent id (reg.map (fun c => if c.id = id then f c else c))
      = (reg.find? (fun c => c.id = id)).map (fun c => (f c).bytesSent) := by
  induction reg with
  | nil => rfl
  | cons c cs ih =>
    by_cases hc : c.id = id
    · simp [lookupBytesSent, List.find?_cons, hc, hid]
    · simp only [List.map_cons]
      simp [lookupBytesSent, List.find?_cons, hc] at ih ⊢
      exact ih

theorem lookup_isSome_any (id : String) (reg : List Conn) (b : Nat)
    (h : lookupBytesSent id reg = some b) : reg.any (fun c => c.id = id) = true := by
  unfold lookupBytesSent at h
  cases hf : reg.find? (fun c => c.id = id) with
  | none => rw [hf] at h; simp at h
  | some c =>
    exact List.any_eq_true.mpr
      ⟨c, List.mem_of_find?_eq_some hf, by simpa using List.find?_some hf⟩

theorem lookup_update_station (id mp : String) (reg : List Conn) (b : Nat)
    (h : lookupBytesSent id reg = some b) :
    lookupBytesSent id
        (updateConnection id (fun c => { c with currentStation := some mp }) reg) = some b := by
  unfold updateConnection
  rw [if_pos (lookup_isSome_any id reg b h)]
  rw [lookupBytesSent_map id (fun c => { c with currentStation := some mp })
    (fun c => rfl) reg]
  unfold lookupBytesSent at h
  cases hf : reg.find? (fun c => c.id = id) with
  | none =>
    rw [hf] at h
    simp at h
  | some c =>
    rw [hf] at h
    simpa using h

theorem lookup_update_bytes (id : String) (m : Nat) (reg : List Conn) (b : Nat)
    (h : lookupBytesSent id reg = some b) :
    lookupBytesSent id
        (updateConnection id (fun c => { c with bytesSent := m }) reg) = some m := by
  unfold updateConnection
  rw [if_pos (lookup_isSome_any id reg b h)]
  rw [lookupBytesSent_map id (fun c => { c with bytesSent := m }) (fun c => rfl) reg]
  unfold lookupBytesSent at h
  cases hf : reg.find? (fun c => c.id = id) with
  | none =>
    rw [hf] at h
    simp at h
  | some c => rfl

/-- The forwarding loop keeps the registry bytesSent equal to the value
computed by bytesRegistry, the closure counter equal to counterAfter,
and appends every chunk to the rover. -/
theorem fwdRun_spec (id : String) (evs : List FwdEvent) :
    ∀ (st : FwdState) (b : Nat), lookupBytesSent id st.registry = some b →
      lookupBytesSent id (fwdRun id false st evs).registry
          = some (bytesRegistry evs st.sentBytes b)
      ∧ (fwdRun id false st evs).sentBytes = counterAfter evs st.sentBytes
      ∧ (fwdRun id false st evs).writtenToRover = st.writtenToRover ++ chunkList evs := by
  induction evs with
  | nil =>
    intro st b h
    exact ⟨by simpa [fwdRun, bytesRegistry] using h, rfl, by simp [fwdRun, chunkList]⟩
  | cons e evs ih =>
    intro st b h
    cases e with
    | dial mp =>
      have h' : lookupBytesSent id (fwdStep id false st (FwdEvent.dial mp)).registry
          = some b := by
        simpa [fwdStep] using lookup_update_station id mp st.registry b h
      have hrec := ih (fwdStep id false st (FwdEvent.dial mp)) b h'
      simpa [fwdRun, fwdStep, bytesRegistry, counterAfter, chunkList] using hrec
    | chunk n =>
      have h' : lookupBytesSent id (fwdStep id false st (FwdEvent.chunk n)).registry
          = some (st.sentBytes + n) := by
        simpa [fwdStep] using lookup_update_bytes id (st.sentBytes + n) st.registry b h
      have hrec := ih (fwdStep id false st (FwdEvent.chunk n)) (st.sentBytes + n) h'
      simpa [fwdRun, fwdStep, bytesRegistry, counterAfter, chunkList] using hrec

/-- C6 counterexample: over the trace with a station switch between a
ten-byte and a three-byte chunk, the registry records bytesSent 3 at the
end, not the cumulative 13 the claim states, and the counter decreased
from 10 to 3 across the switch instead of being monotone. -/
theorem c6_bytes_counterexample :
    lookupBytesSent "s" (fwdRun "s" false ⟨[c6Conn], 0, []⟩ c6Trace).registry
        ≠ some (totalChunkBytes c6Trace)
    ∧ lookupBytesSent "s" (fwdRun "s" false ⟨[c6Conn], 0, []⟩ (c6Trace.take 2)).registry
        = some 10
    ∧ lookupBytesSent "s" (fwdRun "s" false ⟨[c6Conn], 0, []⟩ c6Trace).registry = some 3
    ∧ totalChunkBytes c6Trace = 13 := by
  refine ⟨by decide, by decide, by decide, by decide⟩

/-- C6 amended: every chunk received from the bound upstream is written
to the rover socket, but the bytesSent counter in the registry is
per-dial, not per-session: after any trace it equals bytesRegistry,
which restarts the count at each successful dial, so after a trace
ending in a chunk it equals the bytes forwarded since the most recent
station switch, not since the session began. -/
theorem c6_bytes_amended (id : String) (evs : List FwdEvent) (reg : List Conn) (b : Nat)
    (h : lookupBytesSent id reg = some b) :
    (lookupBytesSent id (fwdRun id false ⟨reg, 0, []⟩ evs).registry
        = some (bytesRegistry evs 0 b)
    ∧ (fwdRun id false ⟨reg, 0, []⟩ evs).writtenToRover = chunkList evs)
    ∧ (∀ (tr : List FwdEvent) (n a c : Nat),
        bytesRegistry (tr ++ [FwdEvent.chunk n]) a c = counterAfter tr a + n)
    ∧ (∀ tr : List FwdEvent, counterAfter tr 0 = bytesSinceLastDial tr) := by
  refine ⟨?_, ?_, fun tr => rfl⟩
  · have hrec := fwdRun_spec id evs ⟨reg, 0, []⟩ b h
    exact ⟨hrec.1, by simpa using hrec.2.2⟩
  · intro tr
    induction tr with
    | nil => intro n a c; rfl
    | cons e tr ih =>
      intro n a c
      cases e with
      | dial mp => simpa [bytesRegistry, counterAfter] using ih n 0 c
      | chunk m => simpa [bytesRegistry, counterAfter] using ih n (a + m) (a + m)

/-- C6 witness: the amended theorem applied to the concrete registry and
the switch trace, whose stored counter starts at zero. -/
theorem c6_bytes_amended_witness :
    lookupBytesSent "s" [c6Conn] = some 0
    ∧ ((lookupBytesSent "s" (fwdRun "s" false ⟨[c6Conn], 0, []⟩ c6Trace).registry
        = some (bytesRegistry c6Trace 0 0)
    ∧ (fwdRun "s" false ⟨[c6Conn], 0, []⟩ c6Trace).writtenToRover = chunkList c6Trace)
    ∧ (∀ (tr : List FwdEvent) (n a c : Nat),
        bytesRegistry (tr ++ [FwdEvent.chunk n]) a c = counterAfter tr a + n)
    ∧ (∀ tr : List FwdEvent, counterAfter tr 0 = bytesSinceLastDial tr)) :=
  ⟨by decide, c6_bytes_amended "s" c6Trace [c6Conn] 0 (by decide)⟩
